import Mathlib

/-!
Shallow embedding of the snapshot-delta resource-rate estimator from
`measure_step.py`, which exists in two variants in the repository:
`src/wrk2/measure_step.py` (prefix `wrk2_`) and
`src/experiment/measure_step.py` (prefix `exp_`).

Modelling conventions:
* Python floats are modelled as rationals (`ℚ`); the claims at stake are
  about exact values that are representable, so this is faithful.
* Python `int()` truncation is `pyInt`, Python `round(x, 2)` is `round2`
  (round half to even, the documented semantics of Python `round`).
* Python dicts keyed by `"namespace/name"` strings are association lists
  (`List (String × α)`); dict lookup is `dictFind`, `dict.get(k, d)` is
  `dictFindD`, and dict insertion/overwrite is `dictInsert`.
* The `ThreadPoolExecutor`/`as_completed` fan-out is modelled by letting the
  completion order be an arbitrary permutation of the submitted entities.
* Wall-clock reads are modelled by an abstract clock `Nat → ℚ` giving the
  value returned by the n-th `time.time()` / `datetime.now()` call, and the
  statement order of the two driver `main`s is recorded as an event list.
-/

set_option maxRecDepth 8000

/-- Python `int()` applied to a (float) value: truncation toward zero. -/
def pyInt (q : ℚ) : Int := if 0 ≤ q then ⌊q⌋ else ⌈q⌉

/-- Round a rational to the nearest integer, ties to even
(the semantics of Python `round` on exactly representable values). -/
def roundHalfEven (q : ℚ) : Int :=
  if q - ⌊q⌋ < 1/2 then ⌊q⌋
  else if 1/2 < q - ⌊q⌋ then ⌊q⌋ + 1
  else if ⌊q⌋ % 2 = 0 then ⌊q⌋ else ⌊q⌋ + 1

/-- Python `round(x, 2)`. -/
def round2 (q : ℚ) : ℚ := (roundHalfEven (q * 100) : ℚ) / 100

/-- Does the character list start with the given pattern? -/
def listStartsWith : List Char → List Char → Bool
  | [], _ => true
  | _ :: _, [] => false
  | p :: ps, c :: cs => p == c && listStartsWith ps cs

/-- Does the character list contain the pattern as a contiguous run? -/
def charsContain : List Char → List Char → Bool
  | [], pat => pat.isEmpty
  | c :: rest, pat => listStartsWith pat (c :: rest) || charsContain rest pat

/-- Python substring test `pat in s`. -/
def strContains (s pat : String) : Bool := charsContain s.data pat.data

/-- Python `s.split(sep)` on character lists: split at every character
satisfying the predicate, keeping empty pieces. -/
def splitPredChars (p : Char → Bool) : List Char → List (List Char)
  | [] => [[]]
  | c :: rest =>
    match splitPredChars p rest with
    | [] => [[]]
    | h :: t => if p c then [] :: h :: t else (c :: h) :: t

/-- Python `s.split(sep)` for a one-character separator. -/
def pySplitChar (s : String) (sep : Char) : List String :=
  (splitPredChars (fun c => c == sep) s.data).map String.mk

/-- Python `sep.join(parts)` on character lists. -/
def joinWithChars (sep : List Char) : List (List Char) → List Char
  | [] => []
  | [l] => l
  | l :: h :: t => l ++ sep ++ joinWithChars sep (h :: t)

/-- Python `sep.join(parts)`. -/
def pyJoin (sep : String) (parts : List String) : String :=
  String.mk (joinWithChars sep.data (parts.map String.data))

/-- Parse a run of decimal digits (helper for `pyToInt`). -/
def charsToNatGo : List Char → Nat → Option Nat
  | [], acc => some acc
  | c :: rest, acc =>
    if c.isDigit then charsToNatGo rest (acc * 10 + (c.toNat - 48)) else none

/-- Python `int(s)` for plain decimal strings (optionally signed);
`none` models the `ValueError`. -/
def pyToInt (s : String) : Option Int :=
  match s.data with
  | [] => none
  | '-' :: rest =>
    if rest.isEmpty then none
    else (charsToNatGo rest 0).map (fun n => -(n : Int))
  | ds => (charsToNatGo ds 0).map (fun n => (n : Int))

/-- Python `d[k]`-style lookup in an association list (first match). -/
def dictFind {α : Type} (m : List (String × α)) (k : String) : Option α :=
  (m.find? (fun kv => kv.1 == k)).map (fun kv => kv.2)

/-- Python `d.get(k, default)`. -/
def dictFindD {α : Type} (m : List (String × α)) (k : String) (d : α) : α :=
  (dictFind m k).getD d

/-- Python `d[k] = v`: overwrite if the key is present, else append. -/
def dictInsert {α : Type} (m : List (String × α)) (k : String) (v : α) :
    List (String × α) :=
  if m.any (fun kv => kv.1 == k) then
    m.map (fun kv => if kv.1 == k then (k, v) else kv)
  else m ++ [(k, v)]

/-- Python `s.rsplit("-", 2)`: split off at most the last two
hyphen-delimited segments. -/
def rsplitHyphen2 (s : String) : List String :=
  let parts := pySplitChar s '-'
  if 3 ≤ parts.length then
    pyJoin "-" (parts.take (parts.length - 2)) ::
      parts.drop (parts.length - 2)
  else parts

/-- `extract_service_name` from src/experiment/measure_step.py:
`parts = pod_name.rsplit('-', 2)`, return `parts[0]` unless there was no
hyphen at all, in which case the name itself. -/
def extract_service_name (pod_name : String) : String :=
  let parts := rsplitHyphen2 pod_name
  if 3 ≤ parts.length then parts.headD pod_name
  else if parts.length = 2 then parts.headD pod_name
  else pod_name

/-- The service-name derivation inlined in `collect_cumulative_metrics` in
src/wrk2/measure_step.py: `parts = name.split('-')`; join all but the last
two segments when there are at least three, else the whole name. -/
def wrk2_service_name (name : String) : String :=
  let parts := pySplitChar name '-'
  if 3 ≤ parts.length then
    pyJoin "-" (parts.take (parts.length - 2))
  else name

/-- One container's stats as returned by the kubelet summary endpoint
(`usageCoreNanoSeconds`, `workingSetBytes`, `rssBytes`). -/
structure ContainerStat where
  name : String
  cpu_ns : Int
  mem_ws_bytes : Int
  mem_rss_bytes : Int
deriving DecidableEq

/-- Accumulator of the per-container loop in the wrk2 snapshot collector. -/
structure WPodCpu where
  total : Int
  app : Int
  sidecar : Int
deriving DecidableEq

/-- Per-container CPU loop of `collect_cumulative_metrics`
(src/wrk2/measure_step.py): the total accumulates every container; a
container named exactly `istio-proxy` has its value ASSIGNED to the sidecar
bucket (`sidecar_cpu_cum = cpu_ns`, not `+=`); every other container is
accumulated into the app bucket. -/
def wrk2_cpu_step (acc : WPodCpu) (c : ContainerStat) : WPodCpu :=
  if c.name == "istio-proxy" then
    { total := acc.total + c.cpu_ns, app := acc.app, sidecar := c.cpu_ns }
  else
    { total := acc.total + c.cpu_ns, app := acc.app + c.cpu_ns,
      sidecar := acc.sidecar }

/-- The whole per-container CPU loop of the wrk2 snapshot collector. -/
def wrk2_pod_cpu (cs : List ContainerStat) : WPodCpu :=
  cs.foldl wrk2_cpu_step { total := 0, app := 0, sidecar := 0 }

/-- Accumulator of the per-container loop in the experiment snapshot
collector (CPU roles plus summed memory). -/
structure ExpPodAcc where
  cpu_total : Int
  cpu_app : Int
  cpu_sidecar : Int
  mem_ws : Int
  mem_rss : Int
deriving DecidableEq

/-- Per-container loop of `collect_kubelet_snapshot`
(src/experiment/measure_step.py): a container whose name contains `istio`
or `envoy` is accumulated into the sidecar bucket, all others into the app
bucket; the total and the memory sums accumulate every container. -/
def exp_acc_step (acc : ExpPodAcc) (c : ContainerStat) : ExpPodAcc :=
  if strContains c.name "istio" || strContains c.name "envoy" then
    { cpu_total := acc.cpu_total + c.cpu_ns, cpu_app := acc.cpu_app,
      cpu_sidecar := acc.cpu_sidecar + c.cpu_ns,
      mem_ws := acc.mem_ws + c.mem_ws_bytes,
      mem_rss := acc.mem_rss + c.mem_rss_bytes }
  else
    { cpu_total := acc.cpu_total + c.cpu_ns,
      cpu_app := acc.cpu_app + c.cpu_ns, cpu_sidecar := acc.cpu_sidecar,
      mem_ws := acc.mem_ws + c.mem_ws_bytes,
      mem_rss := acc.mem_rss + c.mem_rss_bytes }

/-- The whole per-container loop of the experiment snapshot collector. -/
def exp_pod_acc (cs : List ContainerStat) : ExpPodAcc :=
  cs.foldl exp_acc_step
    { cpu_total := 0, cpu_app := 0, cpu_sidecar := 0, mem_ws := 0,
      mem_rss := 0 }

/-- One snapshot entry of `collect_cumulative_metrics`
(src/wrk2/measure_step.py). `container_details` mirrors the dict of the
same name; `rx_cum`/`tx_cum` are filled by the network pass. -/
structure WPodMetrics where
  ns : String
  category : String
  service : String
  node : String
  cpu_total_cum : Int
  cpu_app_cum : Int
  cpu_sidecar_cum : Int
  container_details : List (String × Int)
  mem_working_set : Int
  mem_rss : Int
  rx_cum : Int
  tx_cum : Int
deriving DecidableEq

/-- Assembly of one wrk2 snapshot entry from kubelet data (before the
network pass fills rx/tx, which start at 0). -/
def wrk2_pod_entry (category node ns name : String) (cs : List ContainerStat)
    (memWsBytes memRssBytes : Int) : WPodMetrics :=
  let c := wrk2_pod_cpu cs
  { ns := ns, category := category, service := wrk2_service_name name,
    node := node,
    cpu_total_cum := c.total, cpu_app_cum := c.app,
    cpu_sidecar_cum := c.sidecar,
    container_details := cs.map (fun k => (k.name, k.cpu_ns)),
    mem_working_set := pyInt ((memWsBytes : ℚ) / (1024 * 1024)),
    mem_rss := pyInt ((memRssBytes : ℚ) / (1024 * 1024)),
    rx_cum := 0, tx_cum := 0 }

/-- One snapshot entry of `collect_kubelet_snapshot`
(src/experiment/measure_step.py); memory is summed over containers and
kept in bytes. -/
structure EPodData where
  ns : String
  category : String
  pod : String
  service : String
  node : String
  cpu_total_nano : Int
  cpu_app_nano : Int
  cpu_sidecar_nano : Int
  memory_ws_bytes : Int
  memory_rss_bytes : Int
deriving DecidableEq

/-- Assembly of one experiment snapshot entry from kubelet data. -/
def exp_pod_entry (category node ns name : String)
    (cs : List ContainerStat) : EPodData :=
  let a := exp_pod_acc cs
  { ns := ns, category := category, pod := name,
    service := extract_service_name name, node := node,
    cpu_total_nano := a.cpu_total, cpu_app_nano := a.cpu_app,
    cpu_sidecar_nano := a.cpu_sidecar,
    memory_ws_bytes := a.mem_ws, memory_rss_bytes := a.mem_rss }

/-- One output row of `calculate_deltas` (src/wrk2/measure_step.py). -/
structure WRow where
  ns : String
  category : String
  service : String
  pod : String
  node : String
  cpu_total_m : Int
  cpu_app_m : Int
  cpu_sidecar_m : Int
  mem_working_set : Int
  mem_rss : Int
  mem_delta : Int
  rx_kbps : ℚ
  tx_kbps : ℚ
deriving DecidableEq

/-- `calculate_deltas` from src/wrk2/measure_step.py, returning the rows and
the `log_failure` entries its skips produce (key, reason).  An entity absent
from `end_metrics` is skipped with reason "Pod disappeared during
measurement"; an entity with negative total-CPU, rx, or tx delta is skipped
with reason "Negative delta detected (counter reset?)"; otherwise a row is
emitted: CPU rates `int(delta / duration / 1e6)`, memory gauges taken from
the end snapshot plus `mem_delta`, network rates `round(delta / duration
/ 1024, 2)`. -/
def wrk2_calculate_deltas (start_metrics end_metrics : List (String × WPodMetrics))
    (duration : ℚ) : List WRow × List (String × String) :=
  match start_metrics with
  | [] => ([], [])
  | (key, s) :: rest =>
    let r := wrk2_calculate_deltas rest end_metrics duration
    match dictFind end_metrics key with
    | none => (r.1, (key, "Pod disappeared during measurement") :: r.2)
    | some e =>
      let cpu_total_delta := e.cpu_total_cum - s.cpu_total_cum
      let cpu_app_delta := e.cpu_app_cum - s.cpu_app_cum
      let cpu_sidecar_delta := e.cpu_sidecar_cum - s.cpu_sidecar_cum
      let rx_delta := e.rx_cum - s.rx_cum
      let tx_delta := e.tx_cum - s.tx_cum
      if cpu_total_delta < 0 ∨ rx_delta < 0 ∨ tx_delta < 0 then
        (r.1, (key, "Negative delta detected (counter reset?)") :: r.2)
      else
        ({ ns := s.ns, category := s.category, service := s.service,
           pod := (pySplitChar key '/').getLastD key, node := s.node,
           cpu_total_m := pyInt ((cpu_total_delta : ℚ) / duration / 1000000),
           cpu_app_m := pyInt ((cpu_app_delta : ℚ) / duration / 1000000),
           cpu_sidecar_m :=
             pyInt ((cpu_sidecar_delta : ℚ) / duration / 1000000),
           mem_working_set := e.mem_working_set, mem_rss := e.mem_rss,
           mem_delta := e.mem_working_set - s.mem_working_set,
           rx_kbps := round2 ((rx_delta : ℚ) / duration / 1024),
           tx_kbps := round2 ((tx_delta : ℚ) / duration / 1024) } :: r.1,
         r.2)

/-- One output row of the delta loop in `collect_metrics`
(src/experiment/measure_step.py). -/
structure ERow where
  timestamp : String
  rps : Int
  ns : String
  category : String
  service : String
  pod : String
  node : String
  cpu_total_m : Int
  cpu_app_m : Int
  cpu_sidecar_m : Int
  memory_ws_mib : Int
  memory_rss_mib : Int
  net_rx_kbps : ℚ
  net_tx_kbps : ℚ
  disk_read_kbps : ℚ
  disk_write_kbps : ℚ
  sys_mem_bw : ℚ
  sys_llc_metric : ℚ
  istio_enabled : Bool
deriving DecidableEq

/-- The per-entity delta loop of `collect_metrics`
(src/experiment/measure_step.py), returning the rows and the `log_warn`
messages.  An entity absent from the T2 snapshot is skipped WITHOUT any
log; an entity with negative total-CPU or app-CPU delta is skipped with a
"Counter reset detected" warning (the sidecar-CPU delta is not checked);
negative network deltas are clamped to zero instead of dropping the entity;
memory gauges come from the T2 snapshot only (no delta field exists). -/
def exp_collect_deltas (timestamp : String) (rps : Int)
    (t1_snapshot t2_snapshot : List (String × EPodData))
    (t1_network t2_network : List (String × Int × Int))
    (disk_metrics : List (String × ℚ × ℚ))
    (pcm_mem_bw pcm_llc : ℚ) (actual_duration : ℚ) (istio_enabled : Bool) :
    List ERow × List String :=
  match t1_snapshot with
  | [] => ([], [])
  | (key, t1d) :: rest =>
    let r := exp_collect_deltas timestamp rps rest t2_snapshot t1_network
      t2_network disk_metrics pcm_mem_bw pcm_llc actual_duration istio_enabled
    match dictFind t2_snapshot key with
    | none => r
    | some t2d =>
      let cpu_delta := t2d.cpu_total_nano - t1d.cpu_total_nano
      let cpu_app_delta := t2d.cpu_app_nano - t1d.cpu_app_nano
      let cpu_sidecar_delta := t2d.cpu_sidecar_nano - t1d.cpu_sidecar_nano
      if cpu_delta < 0 ∨ cpu_app_delta < 0 then
        (r.1, ("Counter reset detected for " ++ key ++ ", skipping") :: r.2)
      else
        let t1n := dictFindD t1_network key (0, 0)
        let t2n := dictFindD t2_network key (0, 0)
        let rx_delta0 := t2n.1 - t1n.1
        let tx_delta0 := t2n.2 - t1n.2
        let rx_delta := if rx_delta0 < 0 then 0 else rx_delta0
        let tx_delta := if tx_delta0 < 0 then 0 else tx_delta0
        let disk := dictFindD disk_metrics key (0, 0)
        ({ timestamp := timestamp, rps := rps,
           ns := t1d.ns, category := t1d.category, service := t1d.service,
           pod := t1d.pod, node := t1d.node,
           cpu_total_m :=
             pyInt ((cpu_delta : ℚ) / actual_duration / 1000000),
           cpu_app_m :=
             pyInt ((cpu_app_delta : ℚ) / actual_duration / 1000000),
           cpu_sidecar_m :=
             pyInt ((cpu_sidecar_delta : ℚ) / actual_duration / 1000000),
           memory_ws_mib := pyInt ((t2d.memory_ws_bytes : ℚ) / 1024 / 1024),
           memory_rss_mib := pyInt ((t2d.memory_rss_bytes : ℚ) / 1024 / 1024),
           net_rx_kbps := round2 ((rx_delta : ℚ) / actual_duration / 1024),
           net_tx_kbps := round2 ((tx_delta : ℚ) / actual_duration / 1024),
           disk_read_kbps := disk.1, disk_write_kbps := disk.2,
           sys_mem_bw := pcm_mem_bw, sys_llc_metric := pcm_llc,
           istio_enabled := istio_enabled } :: r.1, r.2)

/-- Outcome of one `subprocess.run(kubectl exec ...)` attempt inside
`get_pod_network_direct`: a timeout (`subprocess.TimeoutExpired`), a
non-zero return code, or a normal exit with the given stdout lines. -/
inductive FetchOutcome where
  | timeout : FetchOutcome
  | errExit : FetchOutcome
  | ok : List String → FetchOutcome
deriving DecidableEq

/-- What handling one stdout line inside `get_pod_network_direct` does:
not an eth0/net1 line (loop continues), parsed counters (function returns),
or a raised exception (IndexError/ValueError, aborting the attempt). -/
inductive LineResult where
  | noMatch : LineResult
  | parsed : Int → Int → LineResult
  | err : LineResult
deriving DecidableEq

/-- Python `s.split()`: split on whitespace runs, dropping empty pieces. -/
def pySplitWs (s : String) : List String :=
  ((splitPredChars Char.isWhitespace s.data).filter
    (fun l => !l.isEmpty)).map String.mk

/-- One line of `/proc/net/dev` output as handled by
`get_pod_network_direct`: lines containing `eth0` or `net1` are parsed as
`line.split(':')[1].split()`, taking fields 0 (rx bytes) and 8 (tx bytes);
a missing index or unparsable integer raises (LineResult.err). -/
def processNetLine (line : String) : LineResult :=
  if strContains line "eth0" || strContains line "net1" then
    match (pySplitChar line ':').drop 1 with
    | [] => .err
    | seg :: _ =>
      let parts := pySplitWs seg
      match parts[0]?, parts[8]? with
      | some a, some b =>
        match pyToInt a, pyToInt b with
        | some rx, some tx => .parsed rx tx
        | _, _ => .err
      | _, _ => .err
  else .noMatch

/-- The `for line in result.stdout.split('\n')` loop: the first line
containing `eth0`/`net1` decides the attempt; if no line matches, the
attempt falls through to the next retry. -/
def scanNetLines : List String → LineResult
  | [] => .noMatch
  | l :: rest =>
    match processNetLine l with
    | .noMatch => scanNetLines rest
    | r => r

/-- `MAX_RETRIES` from both measure_step.py variants. -/
def MAX_RETRIES : Nat := 2

/-- Retry loop of `get_pod_network_direct` (src/wrk2/measure_step.py),
driven by an oracle giving the outcome of the i-th subprocess attempt.
Returns ((rx, tx), number of attempts made, `log_failure` messages).
Timeouts log "Network timeout (attempt i+1)"; parse exceptions log
"Network error"; a NON-ZERO EXIT retries silently. -/
def wrk2_net_go (pod_label : String) (outcomes : Nat → FetchOutcome) :
    Nat → Nat → (Int × Int) × Nat × List String
  | i, 0 => ((0, 0), i, [])
  | i, fuel + 1 =>
    match outcomes i with
    | .timeout =>
      let r := wrk2_net_go pod_label outcomes (i + 1) fuel
      (r.1, r.2.1,
        (pod_label ++ ": Network timeout (attempt " ++ toString (i + 1) ++ ")")
          :: r.2.2)
    | .errExit => wrk2_net_go pod_label outcomes (i + 1) fuel
    | .ok lines =>
      match scanNetLines lines with
      | .parsed rx tx => ((rx, tx), i + 1, [])
      | .noMatch => wrk2_net_go pod_label outcomes (i + 1) fuel
      | .err =>
        let r := wrk2_net_go pod_label outcomes (i + 1) fuel
        (r.1, r.2.1, (pod_label ++ ": Network error") :: r.2.2)

/-- `get_pod_network_direct` (src/wrk2/measure_step.py). -/
def wrk2_get_pod_network (pod_label : String) (outcomes : Nat → FetchOutcome) :
    (Int × Int) × Nat × List String :=
  wrk2_net_go pod_label outcomes 0 MAX_RETRIES

/-- Retry loop of `get_pod_network_direct`
(src/experiment/measure_step.py): identical control flow, but every
failure branch is `pass` — nothing is ever logged (the log component is
kept in the result type and is always empty). -/
def exp_net_go (outcomes : Nat → FetchOutcome) :
    Nat → Nat → (Int × Int) × Nat × List String
  | i, 0 => ((0, 0), i, [])
  | i, fuel + 1 =>
    match outcomes i with
    | .timeout => exp_net_go outcomes (i + 1) fuel
    | .errExit => exp_net_go outcomes (i + 1) fuel
    | .ok lines =>
      match scanNetLines lines with
      | .parsed rx tx => ((rx, tx), i + 1, [])
      | _ => exp_net_go outcomes (i + 1) fuel

/-- `get_pod_network_direct` (src/experiment/measure_step.py). -/
def exp_get_pod_network (outcomes : Nat → FetchOutcome) :
    (Int × Int) × Nat × List String :=
  exp_net_go outcomes 0 MAX_RETRIES

/-- One entry of `pods_info` handed to `collect_network_parallel`. -/
structure PodInfo where
  name : String
  ns : String
deriving DecidableEq

/-- The result key `f"{pod['namespace']}/{pod['name']}"`. -/
def podKey (p : PodInfo) : String := p.ns ++ "/" ++ p.name

/-- Value stored for one completed future in `collect_network_parallel`:
the fetched pair, or (0, 0) when `future.result()` raised. -/
def readVal (read : PodInfo → Except String (Int × Int)) (p : PodInfo) :
    Int × Int :=
  match read p with
  | .ok v => v
  | .error _ => (0, 0)

/-- `collect_network_parallel` (identical in both measure_step.py
variants): every submitted pod's future is collected exactly once via
`as_completed`, in an arbitrary completion order, into the results dict;
a raising future is recorded as (0, 0). -/
def collect_network_parallel (read : PodInfo → Except String (Int × Int))
    (completion_order : List PodInfo) : List (String × (Int × Int)) :=
  completion_order.foldl
    (fun m p => dictInsert m (podKey p) (readVal read p)) []

/-- The externally visible steps of the two driver programs, used to state
when the clock is read relative to the snapshot assemblies. -/
inductive MEv where
  | collectCpuMemT1 : MEv
  | collectNetT1 : MEv
  | readClockStart : MEv
  | sleepWait : MEv
  | collectCpuMemT2 : MEv
  | collectNetT2 : MEv
  | readClockEnd : MEv
deriving DecidableEq, BEq

/-- Statement order of `collect_metrics` (src/experiment/measure_step.py,
lines 436-467): T1 kubelet snapshot, T1 network pass, `t1_time =
time.time()`, the sleep, T2 kubelet snapshot, T2 network pass, `t2_time =
time.time()`. -/
def exp_main_events : List MEv :=
  [.collectCpuMemT1, .collectNetT1, .readClockStart, .sleepWait,
   .collectCpuMemT2, .collectNetT2, .readClockEnd]

/-- Statement order of `main` (src/wrk2/measure_step.py, lines 388-404):
`start_time = datetime.now()` comes BEFORE the T1 collection
(`collect_cumulative_metrics` does the kubelet pass then the network
pass), then the sleep, the T2 collection, and `end_time`. -/
def wrk2_main_events : List MEv :=
  [.readClockStart, .collectCpuMemT1, .collectNetT1, .sleepWait,
   .collectCpuMemT2, .collectNetT2, .readClockEnd]

/-- `actual_duration = t2_time - t1_time` in the experiment variant;
`clock n` is the value of the n-th clock read and `nominal` the requested
`--duration`, which the computation ignores. -/
def exp_actual_duration (clock : Nat → ℚ) (nominal : ℚ) : ℚ :=
  clock 1 - clock 0

/-- `actual_duration = (end_time - start_time).total_seconds()` in the
wrk2 variant; the nominal duration is ignored here too. -/
def wrk2_actual_duration (clock : Nat → ℚ) (nominal : ℚ) : ℚ :=
  clock 1 - clock 0

/-- wrk2 `main`: the rows are computed with the measured
`actual_duration` as divisor (line 408). -/
def wrk2_main_rows (t1 t2 : List (String × WPodMetrics)) (clock : Nat → ℚ)
    (nominal : ℚ) : List WRow :=
  (wrk2_calculate_deltas t1 t2 (wrk2_actual_duration clock nominal)).1

/-- experiment `collect_metrics`: the rows are computed with the measured
`actual_duration` as divisor (line 467). -/
def exp_main_rows (ts : String) (rps : Int)
    (t1 t2 : List (String × EPodData)) (t1n t2n : List (String × Int × Int))
    (disk : List (String × ℚ × ℚ)) (bw llc : ℚ) (clock : Nat → ℚ)
    (nominal : ℚ) (istio : Bool) : List ERow :=
  (exp_collect_deltas ts rps t1 t2 t1n t2n disk bw llc
    (exp_actual_duration clock nominal) istio).1

/-- wrk2 `main`, lines 391-393: `sys.exit(1)` iff the T1 snapshot is
empty ("Error: Failed to collect initial metrics"); the T2 snapshot is
never checked for emptiness, and per-entity drops cannot cause an exit. -/
def wrk2_main_outcome (t1 t2 : List (String × WPodMetrics)) (duration : ℚ) :
    Except String (List WRow) :=
  if t1.isEmpty then .error "Failed to collect initial metrics"
  else .ok (wrk2_calculate_deltas t1 t2 duration).1

/-- experiment `main`/`collect_metrics`: exits early only when the kubectl
proxy check fails; otherwise `collect_metrics` always returns normally,
merely logging `log_warn "No metrics collected!"` when zero rows were
produced.  Returns the rows and whether that warning fired. -/
def exp_main_outcome (proxy_ok : Bool) (ts : String) (rps : Int)
    (t1 t2 : List (String × EPodData)) (t1n t2n : List (String × Int × Int))
    (disk : List (String × ℚ × ℚ)) (bw llc dur : ℚ) (istio : Bool) :
    Except String (List ERow × Bool) :=
  if proxy_ok then
    let rows := (exp_collect_deltas ts rps t1 t2 t1n t2n disk bw llc dur
      istio).1
    .ok (rows, rows.isEmpty)
  else .error "kubectl proxy not running"

/-! Theorems about the claims. -/

/-- Helper: under the three-segment condition, `rsplit('-', 2)` is the
joined head followed by the last two segments. -/
lemma rsplitHyphen2_of_ge (s : String)
    (h : 3 ≤ (pySplitChar s '-').length) :
    rsplitHyphen2 s =
      pyJoin "-" ((pySplitChar s '-').take ((pySplitChar s '-').length - 2)) ::
        (pySplitChar s '-').drop ((pySplitChar s '-').length - 2) := by
  unfold rsplitHyphen2
  rw [if_pos h]

/-- Claim C8 (amended): for pod names with at least three hyphen-delimited
segments, both variants' service derivations strip the last two segments
and agree; they disagree on two-segment names (see the counterexample). -/
theorem service_name_strip (name : String)
    (h : 3 ≤ (pySplitChar name '-').length) :
    extract_service_name name = wrk2_service_name name ∧
    wrk2_service_name name =
      pyJoin "-"
        ((pySplitChar name '-').take ((pySplitChar name '-').length - 2)) := by
  have hw : wrk2_service_name name =
      pyJoin "-"
        ((pySplitChar name '-').take ((pySplitChar name '-').length - 2)) := by
    unfold wrk2_service_name
    rw [if_pos h]
  refine ⟨?_, hw⟩
  unfold extract_service_name
  rw [rsplitHyphen2_of_ge name h, hw]
  have h3 : 3 ≤
      (pyJoin "-"
          ((pySplitChar name '-').take ((pySplitChar name '-').length - 2)) ::
        (pySplitChar name '-').drop
          ((pySplitChar name '-').length - 2)).length := by
    simp only [List.length_cons, List.length_drop]
    omega
  rw [if_pos h3]
  simp

/-- Claim C8 counterexample: on the two-segment name "frontend-abc" the
experiment variant strips the final segment while the wrk2 variant keeps
the whole name, so the two derivations do not agree on every name. -/
theorem service_name_disagreement_cex :
    extract_service_name "frontend-abc" = "frontend" ∧
    wrk2_service_name "frontend-abc" = "frontend-abc" ∧
    extract_service_name "frontend-abc" ≠ wrk2_service_name "frontend-abc" := by
  exact ⟨by decide, by decide, by decide⟩

/-- Claim C8 witness: the amended theorem at "frontend-abc123-xy1". -/
theorem service_name_strip_witness :
    extract_service_name "frontend-abc123-xy1" =
      wrk2_service_name "frontend-abc123-xy1" ∧
    wrk2_service_name "frontend-abc123-xy1" = "frontend" := by
  have h := service_name_strip "frontend-abc123-xy1" (by decide)
  exact ⟨h.1, h.2.trans (by decide)⟩

/-- Claim C5 (amended): when every attempt times out or exits non-zero,
both variants make exactly `MAX_RETRIES` (= 2) attempts and return the
(0, 0) marker; but only the wrk2 variant logs, and only for the timed-out
attempts (non-zero exits retry silently); the experiment variant never
logs at all. -/
theorem fetch_retry_policy (pod_label : String)
    (outcomes : Nat → FetchOutcome)
    (h : ∀ i, i < MAX_RETRIES →
      outcomes i = .timeout ∨ outcomes i = .errExit) :
    (wrk2_get_pod_network pod_label outcomes).1 = (0, 0) ∧
    (wrk2_get_pod_network pod_label outcomes).2.1 = MAX_RETRIES ∧
    (wrk2_get_pod_network pod_label outcomes).2.2.length =
      ((if outcomes 0 = .timeout then 1 else 0) +
        (if outcomes 1 = .timeout then 1 else 0)) ∧
    exp_get_pod_network outcomes = ((0, 0), MAX_RETRIES, []) := by
  have h0 := h 0 (by decide)
  have h1 := h 1 (by decide)
  rcases h0 with h0 | h0 <;> rcases h1 with h1 | h1 <;>
    simp [wrk2_get_pod_network, exp_get_pod_network, wrk2_net_go, exp_net_go,
      MAX_RETRIES, h0, h1]

/-- Claim C5 counterexample: a persistently failing read does NOT always
get a failure logged: the experiment variant logs nothing even when both
attempts time out, and the wrk2 variant logs nothing when both attempts
exit non-zero (each still returns (0, 0) after exactly 2 attempts). -/
theorem fetch_silent_failure_cex :
    exp_get_pod_network (fun _ => FetchOutcome.timeout) = ((0, 0), 2, []) ∧
    wrk2_get_pod_network "default/pod-7" (fun _ => FetchOutcome.errExit) =
      ((0, 0), 2, []) := by
  exact ⟨by decide, by decide⟩

/-- Claim C5 witness: the amended theorem at an always-timing-out read. -/
theorem fetch_retry_policy_witness :
    (wrk2_get_pod_network "default/pod-7" (fun _ => FetchOutcome.timeout)).1 =
      (0, 0) ∧
    (wrk2_get_pod_network "default/pod-7"
      (fun _ => FetchOutcome.timeout)).2.1 = MAX_RETRIES ∧
    (wrk2_get_pod_network "default/pod-7"
      (fun _ => FetchOutcome.timeout)).2.2.length = 2 ∧
    exp_get_pod_network (fun _ => FetchOutcome.timeout) =
      ((0, 0), MAX_RETRIES, []) := by
  have h := fetch_retry_policy "default/pod-7" (fun _ => FetchOutcome.timeout)
    (fun i _ => Or.inl rfl)
  exact ⟨h.1, h.2.1, by rw [h.2.2.1]; decide, h.2.2.2⟩

/-- Claim C6 (amended): in both variants the divisor of every rate is the
measured gap between the two clock reads, never the nominal requested
duration; in the experiment variant the first clock read happens after the
T1 snapshot assembly (kubelet pass and network pass), but in the wrk2
variant the start time is read BEFORE the T1 collection (see the
counterexample); the end time is read after the T2 collection in both. -/
theorem elapsed_is_measured :
    (∀ (clock : Nat → ℚ) (nominal other : ℚ),
      exp_actual_duration clock nominal = clock 1 - clock 0 ∧
      wrk2_actual_duration clock nominal = clock 1 - clock 0 ∧
      exp_actual_duration clock nominal = exp_actual_duration clock other ∧
      wrk2_actual_duration clock nominal = wrk2_actual_duration clock other) ∧
    (∀ (t1 t2 : List (String × WPodMetrics)) (clock : Nat → ℚ) (nominal : ℚ),
      wrk2_main_rows t1 t2 clock nominal =
        (wrk2_calculate_deltas t1 t2 (clock 1 - clock 0)).1) ∧
    exp_main_events.indexOf MEv.collectCpuMemT1 = 0 ∧
    exp_main_events.indexOf MEv.collectNetT1 = 1 ∧
    exp_main_events.indexOf MEv.readClockStart = 2 ∧
    exp_main_events.indexOf MEv.readClockEnd = 6 ∧
    wrk2_main_events.indexOf MEv.readClockStart = 0 ∧
    wrk2_main_events.indexOf MEv.collectCpuMemT1 = 1 ∧
    wrk2_main_events.indexOf MEv.readClockEnd = 6 := by
  exact ⟨fun clock nominal other => ⟨rfl, rfl, rfl, rfl⟩,
    fun t1 t2 clock nominal => rfl,
    by decide, by decide, by decide, by decide, by decide, by decide,
    by decide⟩

/-- Claim C6 counterexample: in the wrk2 variant the start clock read is
the very first step, so the elapsed time is NOT the gap from a time
recorded after collecting T1 — the claim's description of where the start
time is taken fails for this variant. -/
theorem clock_read_order_cex :
    wrk2_main_events.indexOf MEv.readClockStart = 0 ∧
    wrk2_main_events.indexOf MEv.collectCpuMemT1 = 1 ∧
    ¬ (wrk2_main_events.indexOf MEv.collectCpuMemT1 <
        wrk2_main_events.indexOf MEv.readClockStart) := by
  exact ⟨by decide, by decide, by decide⟩

/-- Claim C7 (amended): the wrk2 variant exits with an error exactly when
the T1 snapshot is empty (an empty T2 snapshot with a non-empty T1 yields
an empty record set without any hard failure), and the experiment variant
never hard-fails on empty snapshots at all — it returns normally, only
logging a warning when zero records were produced; per-entity problems
never cause a hard failure in either variant. -/
theorem total_failure_policy :
    (∀ (t1 t2 : List (String × WPodMetrics)) (dur : ℚ),
      (∃ msg, wrk2_main_outcome t1 t2 dur = .error msg) ↔ t1 = []) ∧
    (∀ (ts : String) (rps : Int) (t1 t2 : List (String × EPodData))
      (t1n t2n : List (String × Int × Int)) (disk : List (String × ℚ × ℚ))
      (bw llc dur : ℚ) (istio : Bool),
      exp_main_outcome true ts rps t1 t2 t1n t2n disk bw llc dur istio =
        .ok ((exp_collect_deltas ts rps t1 t2 t1n t2n disk bw llc dur
            istio).1,
          (exp_collect_deltas ts rps t1 t2 t1n t2n disk bw llc dur
            istio).1.isEmpty)) := by
  constructor
  · intro t1 t2 dur
    unfold wrk2_main_outcome
    rcases t1 with _ | ⟨p, rest⟩ <;> simp
  · intro ts rps t1 t2 t1n t2n disk bw llc dur istio
    rfl

/-- A concrete T1 snapshot entry used in the C7 counterexample. -/
def cexPodC7 : WPodMetrics :=
  { ns := "default", category := "application", service := "frontend",
    node := "n1", cpu_total_cum := 1000, cpu_app_cum := 1000,
    cpu_sidecar_cum := 0, container_details := [], mem_working_set := 10,
    mem_rss := 5, rx_cum := 100, tx_cum := 100 }

/-- Claim C7 counterexample: an empty snapshot does NOT surface a hard
failure in the experiment variant (it returns a normal `.ok` outcome with
zero rows and only a warning flag), and in the wrk2 variant an empty T2
snapshot with a non-empty T1 silently yields an empty record set with a
success outcome. -/
theorem empty_snapshot_no_exit_cex :
    exp_main_outcome true "t" 100 [] [] [] [] [] 0 0 2 false =
      .ok ([], true) ∧
    wrk2_main_outcome [("default/frontend-a1b2c3-x1", cexPodC7)] [] 2 =
      .ok [] := by
  exact ⟨rfl, rfl⟩

/-- Helper for C10: folding containers none of which is named
`istio-proxy` adds their CPU sum to total and app and leaves sidecar. -/
lemma wrk2_fold_no_proxy (cs : List ContainerStat) (acc : WPodCpu)
    (h : ∀ c ∈ cs, ¬ c.name = "istio-proxy") :
    (cs.foldl wrk2_cpu_step acc).total =
        acc.total + (cs.map ContainerStat.cpu_ns).sum ∧
    (cs.foldl wrk2_cpu_step acc).app =
        acc.app + (cs.map ContainerStat.cpu_ns).sum ∧
    (cs.foldl wrk2_cpu_step acc).sidecar = acc.sidecar := by
  induction cs generalizing acc with
  | nil => simp
  | cons c cs ih =>
    have hc : ¬ c.name = "istio-proxy" := h c (by simp)
    have hrest : ∀ d ∈ cs, ¬ d.name = "istio-proxy" :=
      fun d hd => h d (by simp [hd])
    rw [List.foldl_cons]
    obtain ⟨h1, h2, h3⟩ := ih (wrk2_cpu_step acc c) hrest
    rw [h1, h2, h3]
    simp [wrk2_cpu_step, hc]
    omega

/-- Helper for C10: with at most one `istio-proxy` container the wrk2
fold satisfies the decomposition, tracking that the sidecar bucket is
still zero while a proxy container may yet come. -/
lemma wrk2_fold_decomp (cs : List ContainerStat) (acc : WPodCpu)
    (h : cs.countP (fun c => c.name == "istio-proxy") ≤ 1)
    (hacc : acc.total = acc.app + acc.sidecar)
    (hacc2 : cs.countP (fun c => c.name == "istio-proxy") = 1 →
      acc.sidecar = 0) :
    (cs.foldl wrk2_cpu_step acc).total =
      (cs.foldl wrk2_cpu_step acc).app +
        (cs.foldl wrk2_cpu_step acc).sidecar := by
  induction cs generalizing acc with
  | nil => simpa using hacc
  | cons c cs ih =>
    rw [List.foldl_cons]
    by_cases hc : c.name = "istio-proxy"
    · have hrest : ∀ d ∈ cs, ¬ d.name = "istio-proxy" := by
        have h2 := h
        rw [List.countP_cons] at h2
        simpa [hc] using h2
      have hcnt : cs.countP (fun c => c.name == "istio-proxy") = 0 :=
        List.countP_eq_zero.mpr (fun a ha => by simpa using hrest a ha)
      have hsd : acc.sidecar = 0 := by
        apply hacc2
        rw [List.countP_cons]
        simp [hc, hcnt]
      have hstep : wrk2_cpu_step acc c =
          { total := acc.total + c.cpu_ns, app := acc.app,
            sidecar := c.cpu_ns } := by
        simp [wrk2_cpu_step, hc]
      rw [hstep]
      obtain ⟨h1, h2, h3⟩ := wrk2_fold_no_proxy cs
        { total := acc.total + c.cpu_ns, app := acc.app,
          sidecar := c.cpu_ns } hrest
      simp at h1 h2 h3
      rw [h1, h2, h3]
      omega
    · have hstep : wrk2_cpu_step acc c =
          { total := acc.total + c.cpu_ns, app := acc.app + c.cpu_ns,
            sidecar := acc.sidecar } := by
        simp [wrk2_cpu_step, hc]
      rw [hstep]
      apply ih
      · rw [List.countP_cons] at h
        simpa [hc] using h
      · simp only
        omega
      · intro hone
        apply hacc2
        rw [List.countP_cons]
        simp [hc, hone]

/-- Helper for C10: the experiment fold preserves the decomposition
difference unconditionally (every container lands in exactly one of the
two role buckets and in the total). -/
lemma exp_fold_decomp (cs : List ContainerStat) (acc : ExpPodAcc) :
    (cs.foldl exp_acc_step acc).cpu_total -
        ((cs.foldl exp_acc_step acc).cpu_app +
          (cs.foldl exp_acc_step acc).cpu_sidecar) =
      acc.cpu_total - (acc.cpu_app + acc.cpu_sidecar) := by
  induction cs generalizing acc with
  | nil => rfl
  | cons c cs ih =>
    rw [List.foldl_cons, ih]
    unfold exp_acc_step
    by_cases hc :
        (strContains c.name "istio" || strContains c.name "envoy") = true
    · rw [if_pos hc]; simp only; ring
    · rw [if_neg hc]; simp only; ring

/-- Claim C10: in every assembled snapshot entry the per-role CPU
decomposition is exact — the recorded total equals app plus sidecar.  The
experiment variant needs no hypothesis; the wrk2 variant needs the
Kubernetes invariant that container names within one pod are unique (at
most one container is named `istio-proxy`), because its sidecar bucket is
assigned rather than accumulated. -/
theorem cpu_role_decomposition (category node ns name : String)
    (cs : List ContainerStat) (memWs memRss : Int)
    (h : cs.countP (fun c => c.name == "istio-proxy") ≤ 1) :
    (exp_pod_entry category node ns name cs).cpu_total_nano =
      (exp_pod_entry category node ns name cs).cpu_app_nano +
        (exp_pod_entry category node ns name cs).cpu_sidecar_nano ∧
    (wrk2_pod_entry category node ns name cs memWs memRss).cpu_total_cum =
      (wrk2_pod_entry category node ns name cs memWs memRss).cpu_app_cum +
        (wrk2_pod_entry category node ns name cs memWs
          memRss).cpu_sidecar_cum := by
  constructor
  · have hd := exp_fold_decomp cs
      { cpu_total := 0, cpu_app := 0, cpu_sidecar := 0, mem_ws := 0,
        mem_rss := 0 }
    simp at hd
    simp only [exp_pod_entry, exp_pod_acc]
    omega
  · have hd := wrk2_fold_decomp cs
      { total := 0, app := 0, sidecar := 0 } h (by simp) (fun _ => rfl)
    simpa [wrk2_pod_entry, wrk2_pod_cpu] using hd

/-- Claim C10 witness: a pod with one application container and one
`istio-proxy` sidecar container. -/
theorem cpu_role_decomposition_witness :
    (exp_pod_entry "application" "n1" "default" "frontend-a1-x1"
        [⟨"frontend", 500, 1024, 1024⟩,
         ⟨"istio-proxy", 300, 2048, 2048⟩]).cpu_total_nano =
      (exp_pod_entry "application" "n1" "default" "frontend-a1-x1"
        [⟨"frontend", 500, 1024, 1024⟩,
         ⟨"istio-proxy", 300, 2048, 2048⟩]).cpu_app_nano +
      (exp_pod_entry "application" "n1" "default" "frontend-a1-x1"
        [⟨"frontend", 500, 1024, 1024⟩,
         ⟨"istio-proxy", 300, 2048, 2048⟩]).cpu_sidecar_nano ∧
    (wrk2_pod_entry "application" "n1" "default" "frontend-a1-x1"
        [⟨"frontend", 500, 1024, 1024⟩,
         ⟨"istio-proxy", 300, 2048, 2048⟩] 4096 4096).cpu_total_cum =
      (wrk2_pod_entry "application" "n1" "default" "frontend-a1-x1"
        [⟨"frontend", 500, 1024, 1024⟩,
         ⟨"istio-proxy", 300, 2048, 2048⟩] 4096 4096).cpu_app_cum +
      (wrk2_pod_entry "application" "n1" "default" "frontend-a1-x1"
        [⟨"frontend", 500, 1024, 1024⟩,
         ⟨"istio-proxy", 300, 2048, 2048⟩] 4096 4096).cpu_sidecar_cum := by
  exact cpu_role_decomposition "application" "n1" "default" "frontend-a1-x1"
    [⟨"frontend", 500, 1024, 1024⟩, ⟨"istio-proxy", 300, 2048, 2048⟩]
    4096 4096 (by decide)

/-- Helper: dict lookup in a singleton association list with its own key. -/
lemma dictFind_singleton {α : Type} (k : String) (v : α) :
    dictFind [(k, v)] k = some v := by
  simp [dictFind]

/-- Claim C3 (amended): an entity present at T1 but absent at T2 is
skipped without aborting the batch in both variants; the wrk2 variant logs
"Pod disappeared during measurement" for it, but the experiment variant
skips it silently, logging nothing. -/
theorem disappearance_skip (key : String) (s : WPodMetrics) (a : EPodData)
    (endW : List (String × WPodMetrics)) (endE : List (String × EPodData))
    (ts : String) (rps : Int) (t1n t2n : List (String × Int × Int))
    (disk : List (String × ℚ × ℚ)) (bw llc dur : ℚ) (istio : Bool)
    (hW : dictFind endW key = none) (hE : dictFind endE key = none) :
    wrk2_calculate_deltas [(key, s)] endW dur =
      ([], [(key, "Pod disappeared during measurement")]) ∧
    exp_collect_deltas ts rps [(key, a)] endE t1n t2n disk bw llc dur istio =
      ([], []) := by
  constructor
  · simp [wrk2_calculate_deltas, hW]
  · simp [exp_collect_deltas, hE]

/-- Claim C2 (amended): the drop/clamp policy differs per variant and per
counter.  The wrk2 variant drops the whole entity (with a logged reason)
when the total-CPU, rx, or tx delta is negative, but does not examine the
per-role CPU deltas.  The experiment variant drops only on a negative
total-CPU or app-CPU delta; a negative network delta does NOT drop the
entity — it is clamped to zero and a record is still produced. -/
theorem negative_counter_drop_policy :
    (∀ (key : String) (s e : WPodMetrics) (dur : ℚ),
      (e.cpu_total_cum < s.cpu_total_cum ∨ e.rx_cum < s.rx_cum ∨
        e.tx_cum < s.tx_cum) →
      wrk2_calculate_deltas [(key, s)] [(key, e)] dur =
        ([], [(key, "Negative delta detected (counter reset?)")])) ∧
    (∀ (ts : String) (rps : Int) (key : String) (a b : EPodData)
      (t1n t2n : List (String × Int × Int)) (disk : List (String × ℚ × ℚ))
      (bw llc dur : ℚ) (istio : Bool),
      a.cpu_total_nano ≤ b.cpu_total_nano →
      a.cpu_app_nano ≤ b.cpu_app_nano →
      (dictFindD t2n key (0, 0)).1 < (dictFindD t1n key (0, 0)).1 →
      (exp_collect_deltas ts rps [(key, a)] [(key, b)] t1n t2n disk bw llc
          dur istio).1.map ERow.net_rx_kbps = [0]) := by
  constructor
  · intro key s e dur hneg
    have hcond : e.cpu_total_cum - s.cpu_total_cum < 0 ∨
        e.rx_cum - s.rx_cum < 0 ∨ e.tx_cum - s.tx_cum < 0 := by omega
    simp only [wrk2_calculate_deltas, dictFind_singleton]
    rw [if_pos hcond]
  · intro ts rps key a b t1n t2n disk bw llc dur istio h1 h2 h3
    have hcpu : ¬ (b.cpu_total_nano - a.cpu_total_nano < 0 ∨
        b.cpu_app_nano - a.cpu_app_nano < 0) := by omega
    have hrx : (dictFindD t2n key (0, 0)).1 -
        (dictFindD t1n key (0, 0)).1 < 0 := by omega
    simp only [exp_collect_deltas, dictFind_singleton]
    rw [if_neg hcpu, if_pos hrx]
    norm_num [round2, roundHalfEven]

/-- A concrete wrk2 snapshot entry (T1) with rx counter 5000. -/
def cexPodW1 : WPodMetrics :=
  { ns := "default", category := "application", service := "geo",
    node := "n1", cpu_total_cum := 1000, cpu_app_cum := 1000,
    cpu_sidecar_cum := 0, container_details := [], mem_working_set := 10,
    mem_rss := 5, rx_cum := 5000, tx_cum := 100 }

/-- The same entry at T2 with the rx counter reset to 3000. -/
def cexPodW2 : WPodMetrics :=
  { cexPodW1 with rx_cum := 3000 }

/-- A concrete experiment snapshot entry at T1 (10 MiB working set). -/
def cexPodA : EPodData :=
  { ns := "default", category := "application", pod := "geo-5d4f6c-x2",
    service := "geo", node := "n1", cpu_total_nano := 1000000000,
    cpu_app_nano := 1000000000, cpu_sidecar_nano := 0,
    memory_ws_bytes := 10485760, memory_rss_bytes := 10485760 }

/-- The same entry at T2: CPU grew to 3e9, working set to 250 MiB. -/
def cexPodB : EPodData :=
  { cexPodA with
    cpu_total_nano := 3000000000
    cpu_app_nano := 3000000000
    memory_ws_bytes := 262144000
    memory_rss_bytes := 0 }

/-- Claim C2 counterexample: in the experiment variant an entity whose rx
counter regressed (5000 → 3000) with non-decreasing CPU counters is NOT
dropped: a Delta Record is still produced (one row), with the negative
network delta clamped so the rx rate reads 0. -/
theorem negative_counter_keep_cex :
    (exp_collect_deltas "t" 100 [("default/geo-5d4f6c-x2", cexPodA)]
        [("default/geo-5d4f6c-x2", cexPodB)]
        [("default/geo-5d4f6c-x2", (5000, 0))]
        [("default/geo-5d4f6c-x2", (3000, 0))] [] 0 0 2 false).1.length
      = 1 ∧
    (exp_collect_deltas "t" 100 [("default/geo-5d4f6c-x2", cexPodA)]
        [("default/geo-5d4f6c-x2", cexPodB)]
        [("default/geo-5d4f6c-x2", (5000, 0))]
        [("default/geo-5d4f6c-x2", (3000, 0))] [] 0 0 2
        false).1.map ERow.net_rx_kbps = [0] := by
  constructor <;>
    norm_num [exp_collect_deltas, dictFind, dictFindD, cexPodA, cexPodB,
      pyInt, round2, roundHalfEven]

/-- Claim C2 witness: the amended policy at a wrk2 entity whose rx counter
reset and at the experiment entity of the counterexample. -/
theorem negative_counter_drop_policy_witness :
    wrk2_calculate_deltas [("default/geo-1", cexPodW1)]
        [("default/geo-1", cexPodW2)] 2 =
      ([], [("default/geo-1", "Negative delta detected (counter reset?)")]) ∧
    (exp_collect_deltas "t" 100 [("default/geo-5d4f6c-x2", cexPodA)]
        [("default/geo-5d4f6c-x2", cexPodB)]
        [("default/geo-5d4f6c-x2", (5000, 0))]
        [("default/geo-5d4f6c-x2", (3000, 0))] [] 0 0 2
        false).1.map ERow.net_rx_kbps = [0] := by
  have h := negative_counter_drop_policy
  exact ⟨h.1 "default/geo-1" cexPodW1 cexPodW2 2
      (by norm_num [cexPodW1, cexPodW2]),
    h.2 "t" 100 "default/geo-5d4f6c-x2" cexPodA cexPodB
      [("default/geo-5d4f6c-x2", (5000, 0))]
      [("default/geo-5d4f6c-x2", (3000, 0))] [] 0 0 2 false
      (by norm_num [cexPodA, cexPodB]) (by norm_num [cexPodA, cexPodB])
      (by norm_num [dictFindD, dictFind])⟩

/-- Claim C3 counterexample: the experiment variant drops an entity that
disappeared between the snapshots with NO log at all — the second
component (the log list) is empty, so the drop is not "logged with a
reason identifying the disappearance". -/
theorem disappearance_unlogged_cex :
    exp_collect_deltas "t" 100 [("default/geo-5d4f6c-x2", cexPodA)] [] [] []
      [] 0 0 2 false = ([], []) := rfl

/-- Claim C3 witness: the amended theorem at concrete snapshots. -/
theorem disappearance_skip_witness :
    wrk2_calculate_deltas [("default/geo-1", cexPodW1)] [] 2 =
      ([], [("default/geo-1", "Pod disappeared during measurement")]) ∧
    exp_collect_deltas "t" 100 [("default/geo-1", cexPodA)]
      [("default/other", cexPodB)] [] [] [] 0 0 2 false = ([], []) := by
  exact disappearance_skip "default/geo-1" cexPodW1 cexPodA []
    [("default/other", cexPodB)] "t" 100 [] [] [] 0 0 2 false
    (by decide) (by decide)

/-- Claim C9 (amended): for a kept entity the memory gauges are taken
verbatim from the T2 snapshot in both variants; the gauge change between
T1 and T2 is additionally reported as the separate `mem_delta` field ONLY
in the wrk2 variant — the experiment variant's record carries no memory
delta field (see the counterexample). -/
theorem memory_gauge_from_t2 (key : String) (s e : WPodMetrics)
    (ts : String) (rps : Int) (a b : EPodData)
    (t1n t2n : List (String × Int × Int)) (disk : List (String × ℚ × ℚ))
    (bw llc dur : ℚ) (istio : Bool)
    (hW : ¬ (e.cpu_total_cum - s.cpu_total_cum < 0 ∨
      e.rx_cum - s.rx_cum < 0 ∨ e.tx_cum - s.tx_cum < 0))
    (hE : ¬ (b.cpu_total_nano - a.cpu_total_nano < 0 ∨
      b.cpu_app_nano - a.cpu_app_nano < 0)) :
    (wrk2_calculate_deltas [(key, s)] [(key, e)] dur).1.map
        (fun r => (r.mem_working_set, r.mem_rss, r.mem_delta)) =
      [(e.mem_working_set, e.mem_rss,
        e.mem_working_set - s.mem_working_set)] ∧
    (exp_collect_deltas ts rps [(key, a)] [(key, b)] t1n t2n disk bw llc dur
        istio).1.map (fun r => (r.memory_ws_mib, r.memory_rss_mib)) =
      [(pyInt ((b.memory_ws_bytes : ℚ) / 1024 / 1024),
        pyInt ((b.memory_rss_bytes : ℚ) / 1024 / 1024))] := by
  constructor
  · simp only [wrk2_calculate_deltas, dictFind_singleton]
    rw [if_neg hW]
    simp
  · simp only [exp_collect_deltas, dictFind_singleton]
    rw [if_neg hE]
    simp

/-- The experiment rows produced for an entity whose working set moved
from 10 MiB at T1 to 250 MiB at T2 (change: 240 MiB). -/
def cexRowsC9 : List ERow :=
  (exp_collect_deltas "t" 100 [("default/geo-5d4f6c-x2", cexPodA)]
    [("default/geo-5d4f6c-x2", cexPodB)] [] [] [] 0 0 2 false).1

/-- Claim C9 counterexample: the experiment record reports the T2 gauges
but NO field of the produced record carries the 240 MiB gauge change —
every numeric field of the single row differs from 240 — so the change is
not "additionally reported as a separate field" in that variant. -/
theorem memory_delta_missing_cex :
    cexRowsC9.map ERow.memory_ws_mib = [250] ∧
    cexRowsC9.map ERow.memory_rss_mib = [0] ∧
    cexRowsC9.map ERow.cpu_total_m = [1000] ∧
    cexRowsC9.map ERow.cpu_app_m = [1000] ∧
    cexRowsC9.map ERow.cpu_sidecar_m = [0] ∧
    cexRowsC9.map ERow.net_rx_kbps = [0] ∧
    cexRowsC9.map ERow.net_tx_kbps = [0] ∧
    cexRowsC9.map ERow.disk_read_kbps = [0] ∧
    cexRowsC9.map ERow.disk_write_kbps = [0] ∧
    cexRowsC9.map ERow.sys_mem_bw = [0] ∧
    cexRowsC9.map ERow.sys_llc_metric = [0] ∧
    cexRowsC9.map ERow.rps = [100] ∧
    pyInt ((cexPodB.memory_ws_bytes : ℚ) / 1024 / 1024) -
      pyInt ((cexPodA.memory_ws_bytes : ℚ) / 1024 / 1024) = 240 ∧
    (250 : Int) ≠ 240 ∧ (1000 : Int) ≠ 240 ∧ (100 : Int) ≠ 240 ∧
    (0 : Int) ≠ 240 ∧ (0 : ℚ) ≠ 240 := by
  norm_num [cexRowsC9, exp_collect_deltas, dictFind, dictFindD, cexPodA,
    cexPodB, pyInt, round2, roundHalfEven]

/-- Claim C9 witness: the amended theorem at concrete entities. -/
theorem memory_gauge_from_t2_witness :
    (wrk2_calculate_deltas [("default/geo-1", cexPodW1)]
        [("default/geo-1", cexPodW1)] 2).1.map
        (fun r => (r.mem_working_set, r.mem_rss, r.mem_delta)) =
      [(10, 5, 0)] ∧
    (exp_collect_deltas "t" 100 [("default/geo-1", cexPodA)]
        [("default/geo-1", cexPodB)] [] [] [] 0 0 2 false).1.map
        (fun r => (r.memory_ws_mib, r.memory_rss_mib)) = [(250, 0)] := by
  have h := memory_gauge_from_t2 "default/geo-1" cexPodW1 cexPodW1 "t" 100
    cexPodA cexPodB [] [] [] 0 0 2 false
    (by norm_num [cexPodW1]) (by norm_num [cexPodA, cexPodB])
  refine ⟨h.1.trans ?_, h.2.trans ?_⟩
  · norm_num [cexPodW1]
  · norm_num [cexPodA, cexPodB, pyInt]

/-- Helper for C1 (wrk2 side): an entity present in both snapshots with
non-decreasing checked counters yields a row whose rates are the truncated
and rounded normalized quotients. -/
lemma wrk2_row_mem (startM endM : List (String × WPodMetrics)) (dur : ℚ)
    (key : String) (s e : WPodMetrics)
    (hmem : (key, s) ∈ startM) (hlook : dictFind endM key = some e)
    (h1 : s.cpu_total_cum ≤ e.cpu_total_cum)
    (h4 : s.rx_cum ≤ e.rx_cum) (h5 : s.tx_cum ≤ e.tx_cum) :
    ∃ r ∈ (wrk2_calculate_deltas startM endM dur).1,
      r.cpu_total_m =
        pyInt (((e.cpu_total_cum - s.cpu_total_cum : ℤ) : ℚ) / dur /
          1000000) ∧
      r.cpu_app_m =
        pyInt (((e.cpu_app_cum - s.cpu_app_cum : ℤ) : ℚ) / dur / 1000000) ∧
      r.cpu_sidecar_m =
        pyInt (((e.cpu_sidecar_cum - s.cpu_sidecar_cum : ℤ) : ℚ) / dur /
          1000000) ∧
      r.rx_kbps = round2 (((e.rx_cum - s.rx_cum : ℤ) : ℚ) / dur / 1024) ∧
      r.tx_kbps = round2 (((e.tx_cum - s.tx_cum : ℤ) : ℚ) / dur / 1024) := by
  induction startM with
  | nil => cases hmem
  | cons head rest ih =>
    obtain ⟨k0, s0⟩ := head
    rcases List.mem_cons.mp hmem with heq | hmem2
    · obtain ⟨hk, hs⟩ := Prod.mk.injEq .. ▸ heq
      subst hk
      subst hs
      have hcond : ¬ (e.cpu_total_cum - s.cpu_total_cum < 0 ∨
          e.rx_cum - s.rx_cum < 0 ∨ e.tx_cum - s.tx_cum < 0) := by omega
      simp only [wrk2_calculate_deltas, hlook]
      rw [if_neg hcond]
      exact ⟨_, List.mem_cons_self _ _, rfl, rfl, rfl, rfl, rfl⟩
    · obtain ⟨r, hr, hf⟩ := ih hmem2
      refine ⟨r, ?_, hf⟩
      simp only [wrk2_calculate_deltas]
      rcases hfind : dictFind endM k0 with _ | e0 <;> simp only [hfind]
      · exact hr
      · by_cases hneg : (e0.cpu_total_cum - s0.cpu_total_cum < 0 ∨
            e0.rx_cum - s0.rx_cum < 0 ∨ e0.tx_cum - s0.tx_cum < 0)
        · rw [if_pos hneg]; exact hr
        · rw [if_neg hneg]; exact List.mem_cons_of_mem _ hr

/-- Helper for C1 (experiment side): same membership statement for the
experiment delta loop, with the network counters read through the
`.get(key, (0, 0))` maps. -/
lemma exp_row_mem (ts : String) (rps : Int)
    (startM endM : List (String × EPodData))
    (t1n t2n : List (String × Int × Int)) (disk : List (String × ℚ × ℚ))
    (bw llc dur : ℚ) (istio : Bool) (key : String) (a b : EPodData)
    (hmem : (key, a) ∈ startM) (hlook : dictFind endM key = some b)
    (h1 : a.cpu_total_nano ≤ b.cpu_total_nano)
    (h2 : a.cpu_app_nano ≤ b.cpu_app_nano)
    (h4 : (dictFindD t1n key (0, 0)).1 ≤ (dictFindD t2n key (0, 0)).1)
    (h5 : (dictFindD t1n key (0, 0)).2 ≤ (dictFindD t2n key (0, 0)).2) :
    ∃ r ∈ (exp_collect_deltas ts rps startM endM t1n t2n disk bw llc dur
        istio).1,
      r.cpu_total_m =
        pyInt (((b.cpu_total_nano - a.cpu_total_nano : ℤ) : ℚ) / dur /
          1000000) ∧
      r.cpu_app_m =
        pyInt (((b.cpu_app_nano - a.cpu_app_nano : ℤ) : ℚ) / dur /
          1000000) ∧
      r.cpu_sidecar_m =
        pyInt (((b.cpu_sidecar_nano - a.cpu_sidecar_nano : ℤ) : ℚ) / dur /
          1000000) ∧
      r.net_rx_kbps =
        round2 ((((dictFindD t2n key (0, 0)).1 -
          (dictFindD t1n key (0, 0)).1 : ℤ) : ℚ) / dur / 1024) ∧
      r.net_tx_kbps =
        round2 ((((dictFindD t2n key (0, 0)).2 -
          (dictFindD t1n key (0, 0)).2 : ℤ) : ℚ) / dur / 1024) := by
  induction startM with
  | nil => cases hmem
  | cons head rest ih =>
    obtain ⟨k0, a0⟩ := head
    rcases List.mem_cons.mp hmem with heq | hmem2
    · obtain ⟨hk, ha⟩ := Prod.mk.injEq .. ▸ heq
      subst hk
      subst ha
      have hcond : ¬ (b.cpu_total_nano - a.cpu_total_nano < 0 ∨
          b.cpu_app_nano - a.cpu_app_nano < 0) := by omega
      have hrx : ¬ ((dictFindD t2n key (0, 0)).1 -
          (dictFindD t1n key (0, 0)).1 < 0) := by omega
      have htx : ¬ ((dictFindD t2n key (0, 0)).2 -
          (dictFindD t1n key (0, 0)).2 < 0) := by omega
      simp only [exp_collect_deltas, hlook]
      rw [if_neg hcond, if_neg hrx, if_neg htx]
      exact ⟨_, List.mem_cons_self _ _, rfl, rfl, rfl, rfl, rfl⟩
    · obtain ⟨r, hr, hf⟩ := ih hmem2
      refine ⟨r, ?_, hf⟩
      simp only [exp_collect_deltas]
      rcases hfind : dictFind endM k0 with _ | b0 <;> simp only [hfind]
      · exact hr
      · by_cases hneg : (b0.cpu_total_nano - a0.cpu_total_nano < 0 ∨
            b0.cpu_app_nano - a0.cpu_app_nano < 0)
        · rw [if_pos hneg]; exact hr
        · rw [if_neg hneg]
          exact List.mem_cons_of_mem _ hr

/-- Claim C1 (amended): for every entity present in both snapshots with
all checked cumulative counters non-decreasing, a Delta Record is
produced in both variants; its CPU rates are the `int()`-TRUNCATION of
(delta / elapsed / 1e6) milli-units per second (not the exact quotient —
see the counterexample) and its network rates are (delta / elapsed /
1024) KiB/s rounded to two decimals.  The concrete scenario of the claim
(cpu 1e9 → 3e9 over 2 s) still yields exactly 1000, as the witness
evaluates. -/
theorem delta_record_rates
    (startW endW : List (String × WPodMetrics)) (durW : ℚ)
    (keyW : String) (s e : WPodMetrics)
    (hmemW : (keyW, s) ∈ startW) (hlookW : dictFind endW keyW = some e)
    (hw1 : s.cpu_total_cum ≤ e.cpu_total_cum)
    (hw4 : s.rx_cum ≤ e.rx_cum) (hw5 : s.tx_cum ≤ e.tx_cum)
    (ts : String) (rps : Int) (startE endE : List (String × EPodData))
    (t1n t2n : List (String × Int × Int)) (disk : List (String × ℚ × ℚ))
    (bw llc durE : ℚ) (istio : Bool) (keyE : String) (a b : EPodData)
    (hmemE : (keyE, a) ∈ startE) (hlookE : dictFind endE keyE = some b)
    (he1 : a.cpu_total_nano ≤ b.cpu_total_nano)
    (he2 : a.cpu_app_nano ≤ b.cpu_app_nano)
    (he4 : (dictFindD t1n keyE (0, 0)).1 ≤ (dictFindD t2n keyE (0, 0)).1)
    (he5 : (dictFindD t1n keyE (0, 0)).2 ≤ (dictFindD t2n keyE (0, 0)).2) :
    (∃ r ∈ (wrk2_calculate_deltas startW endW durW).1,
      r.cpu_total_m =
        pyInt (((e.cpu_total_cum - s.cpu_total_cum : ℤ) : ℚ) / durW /
          1000000) ∧
      r.cpu_app_m =
        pyInt (((e.cpu_app_cum - s.cpu_app_cum : ℤ) : ℚ) / durW /
          1000000) ∧
      r.cpu_sidecar_m =
        pyInt (((e.cpu_sidecar_cum - s.cpu_sidecar_cum : ℤ) : ℚ) / durW /
          1000000) ∧
      r.rx_kbps = round2 (((e.rx_cum - s.rx_cum : ℤ) : ℚ) / durW / 1024) ∧
      r.tx_kbps = round2 (((e.tx_cum - s.tx_cum : ℤ) : ℚ) / durW / 1024)) ∧
    (∃ r ∈ (exp_collect_deltas ts rps startE endE t1n t2n disk bw llc durE
        istio).1,
      r.cpu_total_m =
        pyInt (((b.cpu_total_nano - a.cpu_total_nano : ℤ) : ℚ) / durE /
          1000000) ∧
      r.cpu_app_m =
        pyInt (((b.cpu_app_nano - a.cpu_app_nano : ℤ) : ℚ) / durE /
          1000000) ∧
      r.cpu_sidecar_m =
        pyInt (((b.cpu_sidecar_nano - a.cpu_sidecar_nano : ℤ) : ℚ) / durE /
          1000000) ∧
      r.net_rx_kbps =
        round2 ((((dictFindD t2n keyE (0, 0)).1 -
          (dictFindD t1n keyE (0, 0)).1 : ℤ) : ℚ) / durE / 1024) ∧
      r.net_tx_kbps =
        round2 ((((dictFindD t2n keyE (0, 0)).2 -
          (dictFindD t1n keyE (0, 0)).2 : ℤ) : ℚ) / durE / 1024)) :=
  ⟨wrk2_row_mem startW endW durW keyW s e hmemW hlookW hw1 hw4 hw5,
   exp_row_mem ts rps startE endE t1n t2n disk bw llc durE istio keyE a b
     hmemE hlookE he1 he2 he4 he5⟩

/-- A wrk2 entry whose CPU counter advances by 1e6 ns (T1 side). -/
def cexPodR1 : WPodMetrics :=
  { ns := "default", category := "application", service := "geo",
    node := "n1", cpu_total_cum := 0, cpu_app_cum := 0,
    cpu_sidecar_cum := 0, container_details := [], mem_working_set := 10,
    mem_rss := 5, rx_cum := 0, tx_cum := 0 }

/-- The T2 side: the CPU counter advanced by exactly 1e6 ns. -/
def cexPodR2 : WPodMetrics :=
  { cexPodR1 with
    cpu_total_cum := 1000000
    cpu_app_cum := 1000000 }

/-- Claim C1 counterexample: with a CPU delta of 1e6 ns over 2 s the exact
normalized rate is 0.5 milli-units/s, but the emitted rate is int-truncated
to 0 — so the produced rate does NOT equal the counter delta divided by
elapsed seconds in normalized units. -/
theorem cpu_rate_truncation_cex :
    (wrk2_calculate_deltas [("default/geo-1", cexPodR1)]
        [("default/geo-1", cexPodR2)] 2).1.map
      (fun r => (r.cpu_total_m : ℚ)) = [0] ∧
    ((cexPodR2.cpu_total_cum - cexPodR1.cpu_total_cum : ℤ) : ℚ) / 2 /
      1000000 = 1 / 2 ∧
    (0 : ℚ) ≠ 1 / 2 := by
  refine ⟨?_, ?_, by norm_num⟩ <;>
    norm_num [wrk2_calculate_deltas, dictFind, cexPodR1, cexPodR2, pyInt,
      round2, roundHalfEven]

/-- The wrk2 entry of the claim's concrete scenario at T1 (cpu 1e9 ns). -/
def witPodW1 : WPodMetrics :=
  { ns := "default", category := "application", service := "frontend",
    node := "n1", cpu_total_cum := 1000000000, cpu_app_cum := 1000000000,
    cpu_sidecar_cum := 0, container_details := [], mem_working_set := 10,
    mem_rss := 5, rx_cum := 0, tx_cum := 0 }

/-- The same entry at T2 (cpu 3e9 ns). -/
def witPodW2 : WPodMetrics :=
  { witPodW1 with
    cpu_total_cum := 3000000000
    cpu_app_cum := 3000000000 }

/-- Claim C1 witness: the amended theorem at the claim's concrete
scenario — `default/frontend-abc123-xy1`, cpu 1e9 → 3e9 ns, elapsed 2 s —
produces one record whose CPU rate is exactly 1000 milli-units/s in both
variants. -/
theorem delta_record_rates_witness :
    (wrk2_calculate_deltas [("default/frontend-abc123-xy1", witPodW1)]
        [("default/frontend-abc123-xy1", witPodW2)] 2).1 ≠ [] ∧
    (wrk2_calculate_deltas [("default/frontend-abc123-xy1", witPodW1)]
        [("default/frontend-abc123-xy1", witPodW2)] 2).1.map
      WRow.cpu_total_m = [1000] ∧
    (exp_collect_deltas "t" 100 [("default/frontend-abc123-xy1", cexPodA)]
        [("default/frontend-abc123-xy1", cexPodB)] [] [] [] 0 0 2
        false).1 ≠ [] ∧
    (exp_collect_deltas "t" 100 [("default/frontend-abc123-xy1", cexPodA)]
        [("default/frontend-abc123-xy1", cexPodB)] [] [] [] 0 0 2
        false).1.map ERow.cpu_total_m = [1000] := by
  have h := delta_record_rates
    [("default/frontend-abc123-xy1", witPodW1)]
    [("default/frontend-abc123-xy1", witPodW2)] 2
    "default/frontend-abc123-xy1" witPodW1 witPodW2 (by simp) (by decide)
    (by decide) (by decide) (by decide)
    "t" 100 [("default/frontend-abc123-xy1", cexPodA)]
    [("default/frontend-abc123-xy1", cexPodB)] [] [] [] 0 0 2 false
    "default/frontend-abc123-xy1" cexPodA cexPodB (by simp) (by decide)
    (by decide) (by decide) (by decide) (by decide)
  obtain ⟨⟨r1, hr1, hv1⟩, ⟨r2, hr2, hv2⟩⟩ := h
  refine ⟨List.ne_nil_of_mem hr1, ?_, List.ne_nil_of_mem hr2, ?_⟩ <;>
    norm_num [wrk2_calculate_deltas, exp_collect_deltas, dictFind,
      dictFindD, witPodW1, witPodW2, cexPodA, cexPodB, pyInt, round2,
      roundHalfEven]

/-- Helper: lookup at the head key of an association list. -/
lemma dictFind_cons_self {α : Type} (k : String) (v : α)
    (m : List (String × α)) : dictFind ((k, v) :: m) k = some v := by
  simp [dictFind, List.find?_cons]

/-- Helper: lookup skips a head entry with a different key. -/
lemma dictFind_cons_ne {α : Type} (k k' : String) (v : α)
    (m : List (String × α)) (h : k ≠ k') :
    dictFind ((k, v) :: m) k' = dictFind m k' := by
  simp [dictFind, List.find?_cons, h]

/-- Helper: inserting a key absent from the dict appends the entry. -/
lemma dictInsert_fresh {α : Type} (m : List (String × α)) (k : String)
    (v : α) (h : ∀ kv ∈ m, kv.1 ≠ k) :
    dictInsert m k v = m ++ [(k, v)] := by
  have hany : m.any (fun kv => kv.1 == k) = false := by
    rw [List.any_eq_false]
    intro kv hkv
    simpa using h kv hkv
  unfold dictInsert
  rw [hany]
  simp

/-- Helper for C4: with pairwise-distinct fresh keys, folding the
completed futures into the results dict just appends one entry per pod. -/
lemma foldl_dictInsert_eq (read : PodInfo → Except String (Int × Int)) :
    ∀ (order : List PodInfo) (m : List (String × Int × Int)),
      (∀ p ∈ order, ∀ kv ∈ m, kv.1 ≠ podKey p) →
      (order.map podKey).Nodup →
      order.foldl (fun acc p => dictInsert acc (podKey p) (readVal read p))
          m =
        m ++ order.map (fun p => (podKey p, readVal read p)) := by
  intro order
  induction order with
  | nil => intro m _ _; simp
  | cons p rest ih =>
    intro m hfresh hnodup
    rw [List.foldl_cons,
      dictInsert_fresh m (podKey p) (readVal read p)
        (fun kv hkv => hfresh p (by simp) kv hkv)]
    rw [ih (m ++ [(podKey p, readVal read p)]) ?_ ?_]
    · simp
    · intro q hq kv hkv
      rcases List.mem_append.mp hkv with hkv | hkv
      · exact hfresh q (by simp [hq]) kv hkv
      · have hkv2 : kv = (podKey p, readVal read p) := by simpa using hkv
        subst hkv2
        have hnot : podKey p ∉ rest.map podKey :=
          (List.nodup_cons.mp hnodup).1
        have hne : podKey p ≠ podKey q := by
          intro he
          exact hnot (by rw [he]; exact List.mem_map_of_mem podKey hq)
        simpa using hne
    · exact (List.nodup_cons.mp hnodup).2

/-- Helper for C4: looking up a pod's key in the assembled results finds
that pod's read value, given distinct keys. -/
lemma find_in_assoc (read : PodInfo → Except String (Int × Int))
    (p : PodInfo) :
    ∀ (order : List PodInfo), (order.map podKey).Nodup → p ∈ order →
      dictFind (order.map (fun q => (podKey q, readVal read q)))
          (podKey p) =
        some (readVal read p) := by
  intro order
  induction order with
  | nil => intro _ h; cases h
  | cons q rest ih =>
    intro hnodup hmem
    rcases List.mem_cons.mp hmem with rfl | hmem2
    · rw [List.map_cons]
      exact dictFind_cons_self _ _ _
    · have hne : podKey q ≠ podKey p := by
        intro he
        exact (List.nodup_cons.mp hnodup).1
          (by rw [he]; exact List.mem_map_of_mem podKey hmem2)
      rw [List.map_cons, dictFind_cons_ne _ _ _ _ hne]
      exact ih (List.nodup_cons.mp hnodup).2 hmem2

/-- Claim C4: for any set of requested entities with distinct identifiers
and ANY completion order of the futures, `collect_network_parallel`
returns exactly one entry per requested entity (its length equals the
request length), every entity is mapped to its own read result, and an
entity whose read raised is mapped to the (0, 0) marker rather than being
omitted.  (A read that fails internally returns (0, 0) itself — see
`get_pod_network_direct` — so failed entities are always present with
(0, 0).) -/
theorem fetch_all_total (read : PodInfo → Except String (Int × Int))
    (pods order : List PodInfo) (hperm : order.Perm pods)
    (hnodup : (pods.map podKey).Nodup) :
    (collect_network_parallel read order).length = pods.length ∧
    (∀ p ∈ pods,
      dictFind (collect_network_parallel read order) (podKey p) =
        some (readVal read p)) ∧
    (∀ p ∈ pods, ∀ msg, read p = .error msg →
      dictFind (collect_network_parallel read order) (podKey p) =
        some (0, 0)) := by
  have hnodup2 : (order.map podKey).Nodup :=
    ((hperm.map podKey).nodup_iff).mpr hnodup
  have heq : collect_network_parallel read order =
      order.map (fun p => (podKey p, readVal read p)) := by
    have hf := foldl_dictInsert_eq read order []
      (fun p _ kv hkv => absurd hkv (List.not_mem_nil kv)) hnodup2
    simpa [collect_network_parallel] using hf
  refine ⟨?_, ?_, ?_⟩
  · rw [heq]
    simp [hperm.length_eq]
  · intro p hp
    rw [heq]
    exact find_in_assoc read p order hnodup2 (hperm.mem_iff.mpr hp)
  · intro p hp msg hread
    rw [heq, find_in_assoc read p order hnodup2 (hperm.mem_iff.mpr hp)]
    simp [readVal, hread]

/-- Claim C4 witness: three entities fetched in reversed completion
order, with entity `geo-1` raising — the result has 3 entries and maps
`default/geo-1` to (0, 0). -/
theorem fetch_all_total_witness :
    (collect_network_parallel
        (fun p => if p.name == "geo-1" then .error "timed out"
          else .ok (5, 7))
        [⟨"rate-2", "default"⟩, ⟨"geo-1", "default"⟩,
         ⟨"frontend-0", "default"⟩].reverse).length = 3 ∧
    dictFind
        (collect_network_parallel
          (fun p => if p.name == "geo-1" then .error "timed out"
            else .ok (5, 7))
          [⟨"rate-2", "default"⟩, ⟨"geo-1", "default"⟩,
           ⟨"frontend-0", "default"⟩].reverse)
        (podKey ⟨"geo-1", "default"⟩) = some (0, 0) := by
  have h := fetch_all_total
    (fun p => if p.name == "geo-1" then .error "timed out" else .ok (5, 7))
    [⟨"rate-2", "default"⟩, ⟨"geo-1", "default"⟩,
     ⟨"frontend-0", "default"⟩]
    [⟨"rate-2", "default"⟩, ⟨"geo-1", "default"⟩,
     ⟨"frontend-0", "default"⟩].reverse
    (List.reverse_perm _) (by decide)
  exact ⟨h.1.trans (by decide),
    h.2.2 ⟨"geo-1", "default"⟩ (by decide) "timed out" rfl⟩
